import Mathlib

/-!
Verification of the exemption-adjustment and policy-analysis pipeline of the
LVTShift repository (`src/policy_analysis.py`).

Modelling conventions:
* Dollar amounts and rates are rationals (`ℚ`): the Python code works in IEEE
  floats, but every claim under study concerns exact branch structure
  (clamping, zero-denominator handling, truncation vs rounding), not float
  rounding error, and every counterexample below is exactly representable.
* A raw table cell is `RawCell`: a number, a non-numeric string, or a missing
  value.  `pd.to_numeric(·, errors='coerce').fillna(0)` is `toNumeric0`.
* A pandas value that is non-finite (`NaN`/`±inf`) is modelled as `none` in an
  `Option ℚ`; plain float/numpy division by zero yields a non-finite value, so
  unguarded division is `floatDiv`, returning `none` on a zero denominator.
* All pandas operations used by `_compute_adjusted_values` are element-wise and
  column presence is uniform across rows, so the columnar function is embedded
  as a per-row function parameterised by which optional columns are present.
-/

namespace LVTShift

/-- A raw cell of the tax-roll table: a number, non-numeric text, or missing. -/
inductive RawCell where
  | num (q : ℚ)
  | text (s : String)
  | missing
deriving DecidableEq, Repr

/-- `pd.to_numeric(x, errors='coerce').fillna(0)`: numbers pass through,
non-numeric text and missing cells coerce to 0. -/
def toNumeric0 : RawCell → ℚ
  | .num q => q
  | .text _ => 0
  | .missing => 0

/-- Which of the optional columns are present in the DataFrame
(`improvement_value_col`, `exemption_col`, `exemption_flag_col`). -/
structure Cols where
  hasImprovement : Bool
  hasExempt : Bool
  hasFlag : Bool
deriving DecidableEq, Repr

/-- One row of the parcel table: the four raw value cells plus the categorical
fields used by the analyses. -/
structure Parcel where
  land : RawCell
  improvement : RawCell
  exempt : RawCell
  flag : RawCell
  ptype : String
  owner : String
  category : String
deriving DecidableEq, Repr

/-- Shallow embedding of `_compute_adjusted_values` (policy_analysis.py,
lines 6-59), per row.  Returns `(adjusted_land, adjusted_improvement?)`;
the second component is `none` when the improvement column is not supplied.
`.clip(lower=0)` is `max · 0`; the full-exemption mask is `flag != 0` on the
coerced flag column and is applied last, overriding the partial-exemption
result with exact zeros. -/
def computeAdjustedValues (cols : Cols) (p : Parcel) : ℚ × Option ℚ :=
  let land := toNumeric0 p.land
  let improvements : Option ℚ :=
    if cols.hasImprovement then some (toNumeric0 p.improvement) else none
  let afterPartial : ℚ × Option ℚ :=
    if cols.hasExempt then
      let e := toNumeric0 p.exempt
      match improvements with
      | some impr => (max (land - max (e - impr) 0) 0, some (max (impr - e) 0))
      | none => (max (land - e) 0, none)
    else (land, improvements)
  if cols.hasFlag ∧ toNumeric0 p.flag ≠ 0 then
    (0, afterPartial.2.map fun _ => 0)
  else afterPartial

/-- The parcel of the spec's worked example:
land=100000, improvement=20000, exemption=30000, flag=0. -/
def exampleParcel : Parcel :=
  ⟨.num 100000, .num 20000, .num 30000, .num 0, "", "", ""⟩

/-- C1: with a partial exemption amount `e` present and no full-exemption flag
set for the row, the adjusted values are
`adjusted_improvement = max(improvement - e, 0)` and
`adjusted_land = max(land - max(e - improvement, 0), 0)` when an improvement
column is supplied, and `adjusted_land = max(land - e, 0)` when it is not;
in particular land=100000, improvement=20000, e=30000, flag=0 gives
adjusted_improvement=0 and adjusted_land=90000. -/
theorem c1_partial_exemption (cols : Cols) (p : Parcel)
    (hex : cols.hasExempt = true)
    (hflag : cols.hasFlag = true → toNumeric0 p.flag = 0) :
    (cols.hasImprovement = true →
      computeAdjustedValues cols p =
        (max (toNumeric0 p.land - max (toNumeric0 p.exempt - toNumeric0 p.improvement) 0) 0,
         some (max (toNumeric0 p.improvement - toNumeric0 p.exempt) 0))) ∧
    (cols.hasImprovement = false →
      computeAdjustedValues cols p =
        (max (toNumeric0 p.land - toNumeric0 p.exempt) 0, none)) ∧
    computeAdjustedValues ⟨true, true, true⟩ exampleParcel = (90000, some 0) := by
  obtain ⟨hi, he, hf⟩ := cols
  subst hex
  refine ⟨?_, ?_,
    by norm_num [computeAdjustedValues, exampleParcel, toNumeric0, max_def]⟩ <;>
    intro hI <;> subst hI <;> cases hf <;> simp_all [computeAdjustedValues]

/-- Witness for C1 at the spec's worked example. -/
theorem c1_partial_exemption_witness :
    computeAdjustedValues ⟨true, true, true⟩ exampleParcel = (90000, some 0) :=
  (c1_partial_exemption ⟨true, true, true⟩ exampleParcel rfl (fun _ => rfl)).2.2

/-- C2: whenever the full-exemption flag column is present and the row's flag
coerces to a nonzero number, adjusted land is exactly 0 and adjusted
improvement is exactly 0 (when defined), regardless of the raw land value,
improvement value, and partial exemption amount. -/
theorem c2_full_exemption_dominates (cols : Cols) (p : Parcel)
    (hflag : cols.hasFlag = true) (hnz : toNumeric0 p.flag ≠ 0) :
    (computeAdjustedValues cols p).1 = 0 ∧
    (cols.hasImprovement = true → (computeAdjustedValues cols p).2 = some 0) ∧
    (cols.hasImprovement = false → (computeAdjustedValues cols p).2 = none) := by
  obtain ⟨hi, he, hf⟩ := cols
  subst hflag
  cases hi <;> cases he <;> simp_all [computeAdjustedValues]

/-- Witness for C2: land=50000, improvement=10000, exemption=5000, flag=1
yields adjusted land 0 and adjusted improvement 0. -/
theorem c2_full_exemption_dominates_witness :
    (computeAdjustedValues ⟨true, true, true⟩
        ⟨.num 50000, .num 10000, .num 5000, .num 1, "", "", ""⟩).1 = 0 ∧
    (computeAdjustedValues ⟨true, true, true⟩
        ⟨.num 50000, .num 10000, .num 5000, .num 1, "", "", ""⟩).2 = some 0 := by
  have h := c2_full_exemption_dominates ⟨true, true, true⟩
    ⟨.num 50000, .num 10000, .num 5000, .num 1, "", "", ""⟩ rfl (by decide)
  exact ⟨h.1, h.2.1 rfl⟩

/-- C3 counterexample: when no exemption column is present no clamping is
performed, so a row whose raw land value is the (numeric) string-coerced
number -5 yields adjusted_land = -5 < 0, refuting
"for every input row and every combination of present or absent exemption
columns, adjusted_land ≥ 0". -/
theorem c3_counterexample :
    (computeAdjustedValues ⟨false, false, false⟩
      ⟨.num (-5), .missing, .missing, .missing, "", "", ""⟩).1 < 0 := by
  decide

/-- C3 amended: provided the coerced raw land and improvement values are
nonnegative (they are "≥0 nominal" per the data model), every combination of
present or absent exemption columns yields adjusted_land ≥ 0 and
adjusted_improvement ≥ 0 whenever it is defined. -/
theorem c3_adjusted_values_nonneg (cols : Cols) (p : Parcel)
    (hland : 0 ≤ toNumeric0 p.land) (himpr : 0 ≤ toNumeric0 p.improvement) :
    0 ≤ (computeAdjustedValues cols p).1 ∧
    ∀ q : ℚ, (computeAdjustedValues cols p).2 = some q → 0 ≤ q := by
  obtain ⟨hi, he, hf⟩ := cols
  cases hi <;> cases he <;> cases hf <;>
    (simp only [computeAdjustedValues]
     split_ifs <;>
       refine ⟨?_, fun q hq => ?_⟩ <;> simp_all <;>
         first
           | positivity
           | exact le_max_right _ _
           | (subst hq; exact le_max_right _ _))

/-- Witness for C3 (amended) at a concrete nonnegative row. -/
theorem c3_adjusted_values_nonneg_witness :
    0 ≤ (computeAdjustedValues ⟨true, true, false⟩
          ⟨.num 7, .num 3, .num 10, .missing, "", "", ""⟩).1 ∧
    ∀ q : ℚ, (computeAdjustedValues ⟨true, true, false⟩
          ⟨.num 7, .num 3, .num 10, .missing, "", "", ""⟩).2 = some q → 0 ≤ q :=
  c3_adjusted_values_nonneg ⟨true, true, false⟩
    ⟨.num 7, .num 3, .num 10, .missing, "", "", ""⟩ (by decide) (by decide)

/-- Unguarded float/numpy division, as in plain `a / b` on numpy values: a zero
denominator yields a non-finite result (`±inf` or `NaN`), modelled as `none`. -/
def floatDiv (a b : ℚ) : Option ℚ := if b = 0 then none else some (a / b)

/-- Per-parcel improvement-to-land ratio of `analyze_parking_lots`
(policy_analysis.py, lines 256-258): numpy element-wise division followed by
`.replace([inf, -inf], 0).fillna(0)`, so every zero denominator (which numpy
turns into `±inf` or `NaN`) is normalized to 0. -/
def improvementToLandRatio (impr land : ℚ) : ℚ :=
  if land = 0 then 0 else impr / land

/-- Output record of `calculate_development_tax_penalty`.  `Option ℚ` fields
are those the source computes by unguarded division: `none` models a
non-finite (NaN) cell. -/
structure PenaltyResult where
  total_improvement_value : ℚ
  annual_improvement_tax : ℚ
  npv_improvement_tax : ℚ
  npv_as_pct_of_construction_cost : Option ℚ
  typical_unit_construction_cost : ℚ
  equivalent_lost_units : Option ℚ
  estimated_current_units : ℚ
  units_lost_percentage : Option ℚ
deriving DecidableEq, Repr

/-- Shallow embedding of `calculate_development_tax_penalty`
(policy_analysis.py, lines 410-498).  `improvements` is the numeric
improvement-value column, summed raw (no exemption adjustment).
`npv_as_pct_of_construction_cost` and `units_lost_percentage` divide without a
zero-denominator guard, so they are `none` (NaN) when the denominator is 0;
only the NPV annuity factor guards `discount_rate == 0`.  The estimated
housing stock is 1.5 x the count of rows with positive improvement value. -/
def calculateDevelopmentTaxPenalty (improvements : List ℚ) (millage_rate : ℚ)
    (years : ℕ) (discount_rate : ℚ) (cost_per_sqft : ℚ) (unit_size_sqft : ℚ) :
    PenaltyResult :=
  let total := improvements.sum
  let annual := total * millage_rate
  let npv : ℚ :=
    if discount_rate = 0 then annual * years
    else annual * ((1 - (1 + discount_rate) ^ (-(years : ℤ))) / discount_rate)
  let unitCost := cost_per_sqft * unit_size_sqft
  let lostUnits := floatDiv npv unitCost
  let residentialCount := (improvements.filter (fun v => decide (0 < v))).length
  let estUnits := (residentialCount : ℚ) * (3 / 2)
  { total_improvement_value := total
    annual_improvement_tax := annual
    npv_improvement_tax := npv
    npv_as_pct_of_construction_cost := (floatDiv npv total).map (· * 100)
    typical_unit_construction_cost := unitCost
    equivalent_lost_units := lostUnits
    estimated_current_units := estUnits
    units_lost_percentage :=
      lostUnits.bind fun u => (floatDiv u estUnits).map (· * 100) }

/-- C4 counterexample: on a dataset whose improvement column sums to 0 (a
single row with improvement value 0), `calculate_development_tax_penalty`
divides by the zero total and by the zero estimated housing stock without a
guard, so `npv_as_pct_of_construction_cost` and `units_lost_percentage` are
NaN (`none`), not 0 — refuting "every ratio computed anywhere in the system
returns 0 when its denominator is 0". -/
theorem c4_counterexample :
    (calculateDevelopmentTaxPenalty [0] (12/1000) 30 (5/100) 150
        1200).npv_as_pct_of_construction_cost = none ∧
    (calculateDevelopmentTaxPenalty [0] (12/1000) 30 (5/100) 150
        1200).units_lost_percentage ≠ some 0 := by
  constructor <;> simp [calculateDevelopmentTaxPenalty, floatDiv]

/-- C4 amended: ratios normalized through the `replace([inf,-inf],0).fillna(0)`
pattern — in particular the per-parcel improvement-to-land ratio of
`analyze_parking_lots` — return 0 on a zero denominator, but the two
percentage ratios of `calculate_development_tax_penalty`
(`npv_as_pct_of_construction_cost`, denominator the total improvement value,
and `units_lost_percentage`, denominator the estimated current units) are
unguarded and evaluate to NaN (`none`) when their denominators are 0. -/
theorem c4_ratio_zero_denominators (impr land : ℚ) (improvements : List ℚ)
    (millage : ℚ) (years : ℕ) (r cost size : ℚ)
    (hland : land = 0)
    (htot : improvements.sum = 0)
    (hres : improvements.filter (fun v => decide (0 < v)) = []) :
    improvementToLandRatio impr land = 0 ∧
    (calculateDevelopmentTaxPenalty improvements millage years r cost
        size).npv_as_pct_of_construction_cost = none ∧
    (calculateDevelopmentTaxPenalty improvements millage years r cost
        size).units_lost_percentage = none := by
  refine ⟨by simp [improvementToLandRatio, hland], ?_, ?_⟩
  · simp [calculateDevelopmentTaxPenalty, htot, floatDiv]
  · simp only [calculateDevelopmentTaxPenalty, hres]
    rcases h : floatDiv ((if r = 0 then improvements.sum * millage * years
        else improvements.sum * millage *
          ((1 - (1 + r) ^ (-(years : ℤ))) / r))) (cost * size) with _ | u
    · simp [h]
    · simp [h, floatDiv]

/-- Witness for C4 (amended) at a concrete zero-denominator input. -/
theorem c4_ratio_zero_denominators_witness :
    improvementToLandRatio 7 0 = 0 ∧
    (calculateDevelopmentTaxPenalty [0] (12/1000) 30 (5/100) 150
        1200).npv_as_pct_of_construction_cost = none ∧
    (calculateDevelopmentTaxPenalty [0] (12/1000) 30 (5/100) 150
        1200).units_lost_percentage = none :=
  c4_ratio_zero_denominators 7 0 [0] (12/1000) 30 (5/100) 150 1200
    rfl (by simp) (by simp)

/-- C7: `calculate_development_tax_penalty` computes
`annual_improvement_tax = (sum of raw improvement values) x millage_rate`, and
`npv_improvement_tax = annual x years` when the discount rate is 0 and
`annual x (1 - (1 + r)^(-years)) / r` otherwise, so the NPV computation never
divides by a zero discount rate. -/
theorem c7_npv_formula (improvements : List ℚ) (millage : ℚ) (years : ℕ)
    (r cost size : ℚ) :
    (calculateDevelopmentTaxPenalty improvements millage years r cost
        size).annual_improvement_tax = improvements.sum * millage ∧
    (r = 0 →
      (calculateDevelopmentTaxPenalty improvements millage years r cost
          size).npv_improvement_tax = improvements.sum * millage * years) ∧
    (r ≠ 0 →
      (calculateDevelopmentTaxPenalty improvements millage years r cost
          size).npv_improvement_tax =
        improvements.sum * millage * ((1 - (1 + r) ^ (-(years : ℤ))) / r)) := by
  refine ⟨rfl, fun h0 => ?_, fun hne => ?_⟩
  · simp [calculateDevelopmentTaxPenalty, h0]
  · simp [calculateDevelopmentTaxPenalty, hne]

/-- Witness for C7: zero discount rate gives NPV = annual tax x years. -/
theorem c7_npv_formula_witness :
    (calculateDevelopmentTaxPenalty [1000] (1/100) 10 0 150
        1200).npv_improvement_tax = 100 := by
  have h := (c7_npv_formula [1000] (1/100) 10 0 150 1200).2.1 rfl
  rw [h]; norm_num

/-- The in-memory parcel table: which optional columns are present, plus the
rows. -/
structure DataFrame where
  cols : Cols
  rows : List Parcel
deriving DecidableEq, Repr

/-- Result of an analysis that can fail on an empty filtered population: the
source returns `{"error": msg}` instead of the analysis dictionary. -/
inductive AnalysisResult (α : Type) where
  | error (msg : String)
  | ok (a : α)
deriving DecidableEq, Repr

/-- pandas `Series.mean` of a nonempty series: sum over length (the analyses
below only take means of series guarded to be nonempty). -/
def mean (xs : List ℚ) : ℚ := xs.sum / xs.length

/-- pandas `Series.median` of a nonempty series: the middle of the sorted
values, or the average of the two middle values for even length. -/
def median (xs : List ℚ) : ℚ :=
  let s := xs.insertionSort (· ≤ ·)
  if s.length % 2 = 1 then s.getD (s.length / 2) 0
  else (s.getD (s.length / 2 - 1) 0 + s.getD (s.length / 2) 0) / 2

/-- Adjusted land value of one row. -/
def adjLandOf (cols : Cols) (p : Parcel) : ℚ := (computeAdjustedValues cols p).1

/-- Adjusted improvement value of one row.  The parking analysis requires the
improvement column (the source would raise a TypeError at the element-wise
ratio if it were `None`), so the `getD 0` default is never exercised there. -/
def adjImprOf (cols : Cols) (p : Parcel) : ℚ :=
  ((computeAdjustedValues cols p).2).getD 0

/-- Per-owner totals of `analyze_vacant_land`'s owner concentration:
`groupby(owner_col).agg(count, sum)` restricted to the value sums. -/
def ownerTotals (rows : List (String × ℚ)) : List (String × ℚ) :=
  ((rows.map Prod.fst).dedup).map fun o =>
    (o, ((rows.filter (fun r => r.1 == o)).map Prod.snd).sum)

/-- Ordering of `sort_values('total_land_value', ascending=False)` on the
per-owner totals: by value descending.  pandas leaves the order of equal sums
unspecified; the embedding fixes ties by owner key ascending, which matters to
no claim (the examples below use distinct sums). -/
def descOwnerOrder (a b : String × ℚ) : Prop :=
  b.2 < a.2 ∨ (a.2 = b.2 ∧ a.1 ≤ b.1)

instance : DecidableRel descOwnerOrder := fun a b =>
  inferInstanceAs (Decidable (b.2 < a.2 ∨ (a.2 = b.2 ∧ a.1 ≤ b.1)))

/-- `sort_values('total_land_value', ascending=False)` on the owner totals. -/
def sortByValueDesc (xs : List (String × ℚ)) : List (String × ℚ) :=
  xs.insertionSort descOwnerOrder

/-- `max(int(num_owners * frac), 1)` from the owner-concentration metrics:
Python `int()` truncates toward zero, which is `Int.toNat ∘ Int.floor` for the
nonnegative products arising here. -/
def topCount (numOwners : ℕ) (frac : ℚ) : ℕ :=
  max (Int.toNat ⌊(numOwners : ℚ) * frac⌋) 1

/-- `concentration_metrics` of `analyze_vacant_land` (lines 173-192). -/
structure ConcentrationMetrics where
  top_5_percent_owners_control_value : ℚ
  top_5_percent_share : ℚ
  top_10_percent_owners_control_value : ℚ
  top_10_percent_share : ℚ
deriving DecidableEq, Repr

/-- Owner-concentration computation of `analyze_vacant_land`: group the vacant
rows by owner, sum adjusted land value per owner, sort descending, take the
top `max(int(5% of owners), 1)` (resp. 10%) owners, and report value sums and
shares of the total vacant value (share 0 when the total is not positive). -/
def concentrationMetrics (ownerRows : List (String × ℚ)) (totalVacant : ℚ) :
    ConcentrationMetrics :=
  let sorted := sortByValueDesc (ownerTotals ownerRows)
  let numOwners := max sorted.length 1
  let top5v := ((sorted.take (topCount numOwners (5 / 100))).map Prod.snd).sum
  let top10v := ((sorted.take (topCount numOwners (10 / 100))).map Prod.snd).sum
  { top_5_percent_owners_control_value := top5v
    top_5_percent_share := if totalVacant > 0 then top5v / totalVacant * 100 else 0
    top_10_percent_owners_control_value := top10v
    top_10_percent_share := if totalVacant > 0 then top10v / totalVacant * 100 else 0 }

/-- Scalar outputs of `analyze_vacant_land`.  The optional neighborhood and
zoning breakdown tables reuse the same groupby aggregation and are not
referenced by any claim, so they are not carried in the record. -/
structure VacantLandAnalysis where
  total_vacant_parcels : ℕ
  total_vacant_land_value : ℚ
  average_vacant_land_value : ℚ
  median_vacant_land_value : ℚ
  vacant_land_pct_of_total : ℚ
  concentration_metrics : Option ConcentrationMetrics
deriving DecidableEq, Repr

/-- Shallow embedding of `analyze_vacant_land` (lines 62-194): filter rows to
the vacant identifier (exact string equality); on an empty filter return the
error marker before any downstream computation; otherwise compute adjusted
totals, mean, median, percentage of the citywide adjusted total (0 when that
total is not positive), and — when an owner column is supplied — the owner
concentration metrics. -/
def analyzeVacantLand (df : DataFrame) (vacantId : String) (hasOwnerCol : Bool) :
    AnalysisResult VacantLandAnalysis :=
  let vacant := df.rows.filter fun p => p.ptype == vacantId
  if vacant.length = 0 then
    .error ("No properties found with property type == " ++ vacantId)
  else
    let cityAdj := df.rows.map (adjLandOf df.cols)
    let vacantAdj := vacant.map (adjLandOf df.cols)
    let totalVacant := vacantAdj.sum
    let totalCity := cityAdj.sum
    .ok
      { total_vacant_parcels := vacant.length
        total_vacant_land_value := totalVacant
        average_vacant_land_value := mean vacantAdj
        median_vacant_land_value := median vacantAdj
        vacant_land_pct_of_total :=
          if totalCity > 0 then totalVacant / totalCity * 100 else 0
        concentration_metrics :=
          if hasOwnerCol then
            some (concentrationMetrics
              (vacant.map fun p => (p.owner, adjLandOf df.cols p)) totalVacant)
          else none }

/-- `underutilized_parking_lots` sub-record of `analyze_parking_lots`. -/
structure UnderutilizedStats where
  count : ℕ
  total_land_value : ℚ
  average_land_value : ℚ
  total_improvement_value : ℚ
deriving DecidableEq, Repr

/-- `development_potential` sub-record of `analyze_parking_lots`. -/
structure DevelopmentPotential where
  current_improvement_value : ℚ
  potential_improvement_value : ℚ
  untapped_development_value : ℚ
  citywide_avg_improvement_ratio : ℚ
deriving DecidableEq, Repr

/-- Scalar outputs of `analyze_parking_lots`.  The fixed land-value tier table
(`pd.cut` into 0/25k/50k/100k/250k/inf buckets) is not referenced by any
claim and is not carried in the record. -/
structure ParkingAnalysis where
  total_parking_lots : ℕ
  total_parking_land_value : ℚ
  total_parking_improvement_value : ℚ
  average_parking_land_value : ℚ
  average_improvement_ratio : ℚ
  underutilized_parking_lots : UnderutilizedStats
  development_potential : Option DevelopmentPotential
deriving DecidableEq, Repr

/-- Shallow embedding of `analyze_parking_lots` (lines 197-320): filter rows to
the parking identifier; on an empty filter return the error marker before any
downstream computation; otherwise compute adjusted totals, the normalized
per-parcel improvement-to-land ratios, the underutilized subset
(adjusted land ≥ threshold and ratio ≤ max ratio), and the development
potential from the citywide average adjusted ratio (0 denominators
normalized to 0). -/
def analyzeParkingLots (df : DataFrame) (parkingId : String)
    (minLandValueThreshold maxImprovementRatio : ℚ) :
    AnalysisResult ParkingAnalysis :=
  let parking := df.rows.filter fun p => p.ptype == parkingId
  if parking.length = 0 then
    .error ("No properties found with property type == " ++ parkingId)
  else
    let adjL := adjLandOf df.cols
    let adjI := adjImprOf df.cols
    let ratio := fun p => improvementToLandRatio (adjI p) (adjL p)
    let underutilized := parking.filter fun p =>
      decide (minLandValueThreshold ≤ adjL p) &&
        decide (ratio p ≤ maxImprovementRatio)
    let uLand := (underutilized.map adjL).sum
    let uImpr := (underutilized.map adjI).sum
    let cityLand := (df.rows.map adjL).sum
    let cityImpr := (df.rows.map adjI).sum
    .ok
      { total_parking_lots := parking.length
        total_parking_land_value := (parking.map adjL).sum
        total_parking_improvement_value := (parking.map adjI).sum
        average_parking_land_value := mean (parking.map adjL)
        average_improvement_ratio := mean (parking.map ratio)
        underutilized_parking_lots :=
          { count := underutilized.length
            total_land_value := uLand
            average_land_value :=
              if underutilized.length > 0 then mean (underutilized.map adjL) else 0
            total_improvement_value := uImpr }
        development_potential :=
          if underutilized.length > 0 then
            let cityRatio := if cityLand > 0 then cityImpr / cityLand else 0
            some
              { current_improvement_value := uImpr
                potential_improvement_value := uLand * cityRatio
                untapped_development_value := uLand * cityRatio - uImpr
                citywide_avg_improvement_ratio := cityRatio }
          else none }

/-- C5: whenever the property-type filter matches zero rows, both
`analyze_vacant_land` and `analyze_parking_lots` return the explicit error
marker (the guard fires before any adjusted-value, mean, or ratio computation,
so no division over the empty population is attempted). -/
theorem c5_empty_filter_error_marker (df : DataFrame)
    (vacantId parkingId : String) (hasOwnerCol : Bool) (thresh maxRatio : ℚ)
    (hv : df.rows.filter (fun p => p.ptype == vacantId) = [])
    (hp : df.rows.filter (fun p => p.ptype == parkingId) = []) :
    analyzeVacantLand df vacantId hasOwnerCol =
      .error ("No properties found with property type == " ++ vacantId) ∧
    analyzeParkingLots df parkingId thresh maxRatio =
      .error ("No properties found with property type == " ++ parkingId) := by
  constructor
  · simp only [analyzeVacantLand, hv]
    rfl
  · simp only [analyzeParkingLots, hp]
    rfl

/-- Witness for C5 on a one-row table whose property type matches neither
identifier. -/
theorem c5_empty_filter_error_marker_witness :
    analyzeVacantLand
        ⟨⟨true, false, false⟩,
          [⟨.num 1, .num 2, .missing, .missing, "Residential", "o1", "A"⟩]⟩
        "Vacant Land" true =
      .error ("No properties found with property type == " ++ "Vacant Land") ∧
    analyzeParkingLots
        ⟨⟨true, false, false⟩,
          [⟨.num 1, .num 2, .missing, .missing, "Residential", "o1", "A"⟩]⟩
        "Trans - Parking" 50000 (1/10) =
      .error ("No properties found with property type == " ++ "Trans - Parking") :=
  c5_empty_filter_error_marker
    ⟨⟨true, false, false⟩,
      [⟨.num 1, .num 2, .missing, .missing, "Residential", "o1", "A"⟩]⟩
    "Vacant Land" "Trans - Parking" true 50000 (1/10) (by decide) (by decide)

/-- Concentration metrics of a vacant-land result, when present. -/
def vacantConcentrationOf (r : AnalysisResult VacantLandAnalysis) :
    Option ConcentrationMetrics :=
  match r with
  | .ok a => a.concentration_metrics
  | .error _ => none

/-- A one-parcel vacant-land row owned by `o` with land value `v`. -/
def mkVac (o : String) (v : ℚ) : Parcel :=
  ⟨.num v, .missing, .missing, .missing, "Vacant Land", o, ""⟩

/-- A 15-owner vacant-land table: owner `i` holds one vacant parcel of land
value `i` (owners "a".."o", values 1..15). -/
def c6df : DataFrame :=
  ⟨⟨true, false, false⟩,
    [mkVac "a" 1, mkVac "b" 2, mkVac "c" 3, mkVac "d" 4, mkVac "e" 5,
     mkVac "f" 6, mkVac "g" 7, mkVac "h" 8, mkVac "i" 9, mkVac "j" 10,
     mkVac "k" 11, mkVac "l" 12, mkVac "m" 13, mkVac "n" 14, mkVac "o" 15]⟩

/-- The per-owner (owner, adjusted land value) pairs of `c6df`. -/
def c6pairs : List (String × ℚ) :=
  [("a", 1), ("b", 2), ("c", 3), ("d", 4), ("e", 5), ("f", 6), ("g", 7),
   ("h", 8), ("i", 9), ("j", 10), ("k", 11), ("l", 12), ("m", 13),
   ("n", 14), ("o", 15)]

/-- `c6pairs` sorted by value descending. -/
def c6sorted : List (String × ℚ) :=
  [("o", 15), ("n", 14), ("m", 13), ("l", 12), ("k", 11), ("j", 10),
   ("i", 9), ("h", 8), ("g", 7), ("f", 6), ("e", 5), ("d", 4), ("c", 3),
   ("b", 2), ("a", 1)]

/-- C6 counterexample: with 15 owners the code computes
`top_10_count = max(int(15 * 0.10), 1) = max(int(1.5), 1) = 1` — Python `int`
truncates — so `analyze_vacant_land` reports the single largest owner total,
15, as the top-10% tier value; the claim's `max(round(0.10 x 15), 1) = 2`
would instead give the top-2 sum 29 ≠ 15.  This refutes the claimed rounding
formula at an explicit input. -/
theorem c6_counterexample :
    ((vacantConcentrationOf (analyzeVacantLand c6df "Vacant Land" true)).map
        (·.top_10_percent_owners_control_value)) = some 15 ∧
    max (round ((15 : ℚ) * (10 / 100))).toNat 1 = 2 ∧
    ((((sortByValueDesc (ownerTotals c6pairs)).take 2).map Prod.snd).sum : ℚ)
      = 29 ∧
    (15 : ℚ) ≠ 29 := by
  have hfilter : c6df.rows.filter (fun p => p.ptype == "Vacant Land")
      = c6df.rows := by decide
  have hmap : c6df.rows.map (fun p => (p.owner, adjLandOf c6df.cols p))
      = c6pairs := by decide
  have htot : ownerTotals c6pairs = c6pairs := by
    simp +decide [ownerTotals, c6pairs]
  have hsort : sortByValueDesc c6pairs = c6sorted := by
    simp +decide [sortByValueDesc, descOwnerOrder, c6pairs, c6sorted]
  have hcount : topCount 15 (10 / 100) = 1 := by
    norm_num [topCount]
  refine ⟨?_, ?_, ?_, by norm_num⟩
  · simp only [analyzeVacantLand, hfilter, vacantConcentrationOf]
    rw [hmap]
    simp +decide only [c6df]
    simp only [concentrationMetrics, htot, hsort, vacantConcentrationOf]
    simp only [c6sorted, List.length_cons, List.length_nil]
    norm_num [topCount, c6sorted]
  · norm_num [round_eq]
    decide
  · rw [htot, hsort]
    simp only [c6sorted, List.take, List.map_cons, List.map_nil,
      List.sum_cons, List.sum_nil]
    norm_num

/-- C6 amended: the top-tier owner counts use Python `int` truncation, not
rounding: `top_5_count = max(int(0.05 x n), 1)` and
`top_10_count = max(int(0.10 x n), 1)` where `n = max(owner count, 1)`; both
counts are always at least 1 (3 owners give 1 and 1), and each tier's reported
value is the sum of the owner totals of that many top owners sorted by total
adjusted land value descending. -/
theorem c6_owner_concentration (ownerRows : List (String × ℚ)) (tv : ℚ) :
    ((concentrationMetrics ownerRows tv).top_5_percent_owners_control_value =
      (((sortByValueDesc (ownerTotals ownerRows)).take
        (topCount (max (sortByValueDesc (ownerTotals ownerRows)).length 1)
          (5 / 100))).map Prod.snd).sum) ∧
    ((concentrationMetrics ownerRows tv).top_10_percent_owners_control_value =
      (((sortByValueDesc (ownerTotals ownerRows)).take
        (topCount (max (sortByValueDesc (ownerTotals ownerRows)).length 1)
          (10 / 100))).map Prod.snd).sum) ∧
    (∀ n : ℕ, 1 ≤ topCount n (5 / 100) ∧ 1 ≤ topCount n (10 / 100)) ∧
    topCount 3 (5 / 100) = 1 ∧ topCount 3 (10 / 100) = 1 := by
  refine ⟨rfl, rfl, fun n => ⟨Nat.le_max_right _ _, Nat.le_max_right _ _⟩, ?_, ?_⟩
  · have h : ((3 : ℕ) : ℚ) * (5 / 100) = 3 / 20 := by norm_num
    simp only [topCount, h]
    norm_num [Int.floor_eq_iff]
  · have h : ((3 : ℕ) : ℚ) * (10 / 100) = 3 / 10 := by norm_num
    simp only [topCount, h]
    norm_num [Int.floor_eq_iff]

/-- Raw improvement share `improvement / (land + improvement)` of one row
(policy_analysis.py, lines 355-358), computed from the coerced RAW values
(not exemption-adjusted).  A zero total makes the numpy division non-finite,
which the source maps to NaN (`replace([inf,-inf], nan)`), modelled `none`. -/
def improvementShareOf (p : Parcel) : Option ℚ :=
  let land := toNumeric0 p.land
  let impr := toNumeric0 p.improvement
  if land + impr = 0 then none else some (impr / (land + impr))

/-- A row is fully exempt in `analyze_land_by_improvement_share` iff the flag
column is present and the coerced flag is nonzero (lines 364-368). -/
def fullyExempt (cols : Cols) (p : Parcel) : Bool :=
  cols.hasFlag && decide (toNumeric0 p.flag ≠ 0)

/-- "0% improvement" bucket: raw improvement equal 0 and raw total positive
(line 374). -/
def zeroImprMask (p : Parcel) : Bool :=
  decide (toNumeric0 p.improvement = 0) &&
    decide (0 < toNumeric0 p.land + toNumeric0 p.improvement)

/-- "<10% improvement (excl. 0%)" bucket: share strictly between 0 and 0.10
(line 375; a NaN share satisfies no comparison, so it lands in no bucket). -/
def lt10Mask (p : Parcel) : Bool :=
  match improvementShareOf p with
  | some s => decide (0 < s) && decide (s < 1 / 10)
  | none => false

/-- "10-25% improvement" bucket (line 376). -/
def from10to25Mask (p : Parcel) : Bool :=
  match improvementShareOf p with
  | some s => decide (1 / 10 ≤ s) && decide (s < 1 / 4)
  | none => false

/-- "25-50% improvement" bucket (line 377). -/
def from25to50Mask (p : Parcel) : Bool :=
  match improvementShareOf p with
  | some s => decide (1 / 4 ≤ s) && decide (s < 1 / 2)
  | none => false

/-- One bucket row of `analyze_land_by_improvement_share`. -/
structure ShareCategory where
  parcel_count : ℕ
  adjusted_land_value : ℚ
  share_of_total_land_value_pct : ℚ
deriving DecidableEq, Repr

/-- `summarize_category` (lines 384-394): restrict the bucket mask to
non-fully-exempt rows, sum adjusted land over it, and report the percentage
of `totalAdjLand` (the caller passes the already-floored denominator, which
is always positive, so the `> 0` guard is live only in principle). -/
def summarizeShareCategory (df : DataFrame) (totalAdjLand : ℚ)
    (mask : Parcel → Bool) : ShareCategory :=
  let adjCols : Cols := ⟨true, df.cols.hasExempt, df.cols.hasFlag⟩
  let sel := df.rows.filter fun p => mask p && !fullyExempt df.cols p
  let landSum := (sel.map (adjLandOf adjCols)).sum
  { parcel_count := sel.length
    adjusted_land_value := landSum
    share_of_total_land_value_pct :=
      if totalAdjLand > 0 then landSum / totalAdjLand * 100 else 0 }

/-- Output of `analyze_land_by_improvement_share`. -/
structure ImprovementShareAnalysis where
  total_adjusted_land_value : ℚ
  cat_zero_impr : ShareCategory
  cat_lt_10 : ShareCategory
  cat_10_25 : ShareCategory
  cat_25_50 : ShareCategory
deriving DecidableEq, Repr

/-- Shallow embedding of `analyze_land_by_improvement_share` (lines 323-407).
The land and improvement columns are required by the source (it indexes them
directly), so the adjusted values use an improvement-present column set.  The
share denominator is the non-exempt total adjusted land, replaced by 1 when
that total is ≤ 0 (lines 380-382). -/
def analyzeLandByImprovementShare (df : DataFrame) : ImprovementShareAnalysis :=
  let adjCols : Cols := ⟨true, df.cols.hasExempt, df.cols.hasFlag⟩
  let nonEx := df.rows.filter fun p => !fullyExempt df.cols p
  let totalRaw := (nonEx.map (adjLandOf adjCols)).sum
  let denom := if totalRaw ≤ 0 then 1 else totalRaw
  { total_adjusted_land_value := totalRaw
    cat_zero_impr := summarizeShareCategory df denom zeroImprMask
    cat_lt_10 := summarizeShareCategory df denom lt10Mask
    cat_10_25 := summarizeShareCategory df denom from10to25Mask
    cat_25_50 := summarizeShareCategory df denom from25to50Mask }

/-- A one-parcel table with raw land value 1/2 and improvement 0, no
exemption columns. -/
def c8df : DataFrame :=
  ⟨⟨true, false, false⟩, [⟨.num (1/2), .num 0, .missing, .missing, "", "", ""⟩]⟩

/-- C8 counterexample: with a single non-exempt parcel of adjusted land value
1/2, the non-exempt total 1/2 is positive, so the source uses it as the share
denominator unchanged and reports a 100% share for the 0%-improvement bucket;
a denominator "floored at 1" (`max(total, 1)`) would give 50%.  The claimed
floor formula therefore fails at an explicit input (it agrees with the code
only when the total is ≤ 0 or ≥ 1). -/
theorem c8_counterexample :
    (analyzeLandByImprovementShare
        c8df).cat_zero_impr.share_of_total_land_value_pct = 100 ∧
    (analyzeLandByImprovementShare c8df).cat_zero_impr.adjusted_land_value /
        (max (analyzeLandByImprovementShare c8df).total_adjusted_land_value 1)
        * 100 = 50 ∧
    (100 : ℚ) ≠ 50 := by
  have h0 : (analyzeLandByImprovementShare c8df).total_adjusted_land_value
      = 1/2 := by
    norm_num [analyzeLandByImprovementShare, c8df, fullyExempt, adjLandOf,
      computeAdjustedValues, toNumeric0, List.filter]
  have h1 : (analyzeLandByImprovementShare c8df).cat_zero_impr.adjusted_land_value
      = 1/2 := by
    norm_num [analyzeLandByImprovementShare, summarizeShareCategory, c8df,
      fullyExempt, zeroImprMask, adjLandOf, computeAdjustedValues, toNumeric0,
      List.filter]
  refine ⟨?_, ?_, by norm_num⟩
  · norm_num [analyzeLandByImprovementShare, summarizeShareCategory, c8df,
      fullyExempt, zeroImprMask, adjLandOf, computeAdjustedValues, toNumeric0,
      List.filter]
  · rw [h0, h1]
    rw [max_eq_right (by norm_num : (1/2 : ℚ) ≤ 1)]
    norm_num

/-- C8 amended: bucket membership is decided by the raw-value masks restricted
to non-fully-exempt rows, each bucket's `adjusted_land_value` sums adjusted
land over exactly those rows, and the share denominator is the non-exempt
total adjusted land when that total is positive and 1 otherwise (not
`max(total, 1)`); consequently, when every parcel is fully exempt, every
bucket is empty and every `share_of_total_land_value_pct` is 0 rather than a
division error. -/
theorem c8_share_buckets (df : DataFrame) :
    (let adjCols : Cols := ⟨true, df.cols.hasExempt, df.cols.hasFlag⟩
     let denom := if (((df.rows.filter fun p =>
         !fullyExempt df.cols p).map (adjLandOf adjCols)).sum) ≤ 0 then 1
       else ((df.rows.filter fun p =>
         !fullyExempt df.cols p).map (adjLandOf adjCols)).sum
     (analyzeLandByImprovementShare df).cat_zero_impr.parcel_count
        = (df.rows.filter fun p => zeroImprMask p && !fullyExempt df.cols p).length ∧
     (analyzeLandByImprovementShare df).cat_zero_impr.adjusted_land_value
        = ((df.rows.filter fun p => zeroImprMask p && !fullyExempt df.cols p).map
            (adjLandOf adjCols)).sum ∧
     (analyzeLandByImprovementShare df).cat_zero_impr.share_of_total_land_value_pct
        = (analyzeLandByImprovementShare df).cat_zero_impr.adjusted_land_value
            / denom * 100 ∧
     (analyzeLandByImprovementShare df).cat_lt_10.share_of_total_land_value_pct
        = (analyzeLandByImprovementShare df).cat_lt_10.adjusted_land_value
            / denom * 100) ∧
    ((∀ p ∈ df.rows, fullyExempt df.cols p = true) →
      (analyzeLandByImprovementShare df).cat_zero_impr.parcel_count = 0 ∧
      (analyzeLandByImprovementShare df).cat_zero_impr.share_of_total_land_value_pct = 0 ∧
      (analyzeLandByImprovementShare df).cat_lt_10.share_of_total_land_value_pct = 0 ∧
      (analyzeLandByImprovementShare df).cat_10_25.share_of_total_land_value_pct = 0 ∧
      (analyzeLandByImprovementShare df).cat_25_50.share_of_total_land_value_pct = 0) := by
  constructor
  · have hpos : ∀ t : ℚ, 0 < (if t ≤ 0 then (1 : ℚ) else t) := by
      intro t
      split_ifs with h
      · norm_num
      · linarith [not_le.mp h]
    refine ⟨rfl, rfl, ?_, ?_⟩ <;>
      · simp only [analyzeLandByImprovementShare, summarizeShareCategory]
        rw [if_pos (hpos _)]
  · intro hAll
    have hmask : ∀ m : Parcel → Bool,
        df.rows.filter (fun p => m p && !fullyExempt df.cols p) = [] := by
      intro m
      rw [List.filter_eq_nil_iff]
      intro p hp
      simp [hAll p hp]
    have hshare : ∀ m : Parcel → Bool,
        (summarizeShareCategory df
          (if (((df.rows.filter fun p => !fullyExempt df.cols p).map
            (adjLandOf ⟨true, df.cols.hasExempt, df.cols.hasFlag⟩)).sum) ≤ 0
            then 1
            else ((df.rows.filter fun p => !fullyExempt df.cols p).map
              (adjLandOf ⟨true, df.cols.hasExempt, df.cols.hasFlag⟩)).sum)
          m).share_of_total_land_value_pct = 0 := by
      intro m
      simp only [summarizeShareCategory, hmask m, List.map_nil, List.sum_nil,
        zero_div, zero_mul, ite_self]
    exact ⟨by simp only [analyzeLandByImprovementShare, summarizeShareCategory,
        hmask zeroImprMask, List.length_nil],
      hshare zeroImprMask, hshare lt10Mask, hshare from10to25Mask,
      hshare from25to50Mask⟩

/-- Witness for C8 (amended): a one-row fully exempt table has empty buckets
and all-zero shares. -/
theorem c8_share_buckets_witness :
    (analyzeLandByImprovementShare
        ⟨⟨true, false, true⟩,
          [⟨.num 5, .num 5, .missing, .num 1, "", "", ""⟩]⟩).cat_zero_impr.parcel_count
      = 0 ∧
    (analyzeLandByImprovementShare
        ⟨⟨true, false, true⟩,
          [⟨.num 5, .num 5, .missing, .num 1, "", "",
            ""⟩]⟩).cat_25_50.share_of_total_land_value_pct = 0 := by
  have h := (c8_share_buckets
    ⟨⟨true, false, true⟩, [⟨.num 5, .num 5, .missing, .num 1, "", "", ""⟩]⟩).2
    (by intro p hp
        simp only [List.mem_singleton] at hp
        subst hp
        decide)
  exact ⟨h.1, h.2.2.2.2⟩

/-- One output row of `analyze_property_values_by_category`
(policy_analysis.py, lines 586-683).  An `Option` field models a column that
exists only when the corresponding exemption column is supplied; the
doubly-optional `fully_exempt_count` additionally models the cell left NaN
(`some none`) when a category has no fully exempt rows, because that column
is assigned from a partial groupby AFTER the `fillna(0)` of the join. -/
structure CategoryRow where
  category : String
  total_land_value : ℚ
  property_count : ℕ
  total_improvement_value : ℚ
  improvement_land_ratio : ℚ
  total_exemptions : Option ℚ
  non_exempt_land_value : Option ℚ
  non_exempt_improvement_value : Option ℚ
  non_exempt_improvement_land_ratio : Option ℚ
  fully_exempt_count : Option (Option ℕ)
deriving DecidableEq, Repr

/-- `groupby(category_col)` group keys, sorted ascending as pandas does. -/
def categoryKeys (rows : List Parcel) : List String :=
  ((rows.map (·.category)).dedup).insertionSort (· ≤ ·)

/-- The summary row of one category: raw sums/count, raw ratio with
`replace([inf,-inf],0).fillna(0)`, optional exemption sum, optional non-exempt
sums and ratio (adjusted values; the land and improvement columns are both
required and coerced by the source), and the fully-exempt row count computed
with the `== 1` comparison of line 674 — left NaN (`some none`) when the
category has no such rows. -/
def categoryRowFor (df : DataFrame) (c : String) : CategoryRow :=
  let sel := df.rows.filter fun p => p.category == c
  let tl := (sel.map fun p => toNumeric0 p.land).sum
  let ti := (sel.map fun p => toNumeric0 p.improvement).sum
  let adjCols : Cols := ⟨true, df.cols.hasExempt, df.cols.hasFlag⟩
  let nel := (sel.map (adjLandOf adjCols)).sum
  let nei := (sel.map (adjImprOf adjCols)).sum
  let exemptRows := sel.filter fun p => toNumeric0 p.flag == 1
  let hasNonExempt := df.cols.hasExempt || df.cols.hasFlag
  { category := c
    total_land_value := tl
    property_count := sel.length
    total_improvement_value := ti
    improvement_land_ratio := if tl = 0 then 0 else ti / tl
    total_exemptions :=
      if df.cols.hasExempt then some ((sel.map fun p => toNumeric0 p.exempt).sum)
      else none
    non_exempt_land_value := if hasNonExempt then some nel else none
    non_exempt_improvement_value := if hasNonExempt then some nei else none
    non_exempt_improvement_land_ratio :=
      if hasNonExempt then some (if nel = 0 then 0 else nei / nel) else none
    fully_exempt_count :=
      if df.cols.hasFlag then
        some (if exemptRows.length = 0 then none else some exemptRows.length)
      else none }

/-- Descending order on summary rows for
`sort_values('total_land_value', ascending=False)`; pandas leaves tie order
unspecified, the embedding keeps the stable (category-ascending) order. -/
def descCatOrder (a b : CategoryRow) : Prop :=
  b.total_land_value ≤ a.total_land_value

instance : DecidableRel descCatOrder := fun a b =>
  inferInstanceAs (Decidable (b.total_land_value ≤ a.total_land_value))

/-- Shallow embedding of `analyze_property_values_by_category`
(lines 586-683): one summary row per category key, sorted by raw total land
value descending. -/
def analyzePropertyValuesByCategory (df : DataFrame) : List CategoryRow :=
  ((categoryKeys df.rows).map (categoryRowFor df)).insertionSort descCatOrder

/-- Look up a category's row in the summary table. -/
def findCategoryRow (t : List CategoryRow) (c : String) : Option CategoryRow :=
  t.find? fun r => r.category == c

/-- A two-category table with the flag column supplied: category "A" has one
fully exempt row (flag 1), category "B" one non-exempt row (flag 0). -/
def c9df : DataFrame :=
  ⟨⟨true, false, true⟩,
    [⟨.num 10, .num 0, .missing, .num 1, "", "", "A"⟩,
     ⟨.num 20, .num 0, .missing, .num 0, "", "", "B"⟩]⟩

/-- C9 counterexample: `fully_exempt_count` is assigned from the partial
`groupby` of flag==1 rows AFTER the join's `fillna(0)`, so the category "B",
which has no fully exempt rows, gets a NaN cell (`some none`), not 0 — the
returned table does contain a missing/NaN cell and the zero-exempt category
does not report 0. -/
theorem c9_counterexample :
    ((findCategoryRow (analyzePropertyValuesByCategory c9df) "B").map
        (·.fully_exempt_count)) = some (some none) ∧
    ∀ n : ℕ, (some (none : Option ℕ)) ≠ some (some n) := by
  have hkeys : categoryKeys c9df.rows = ["A", "B"] := by
    simp +decide [categoryKeys, c9df]
  have hA : categoryRowFor c9df "A" =
      ⟨"A", 10, 1, 0, 0, none, some 0, some 0, some 0, some (some 1)⟩ := by
    simp +decide [categoryRowFor, c9df, adjLandOf, adjImprOf,
      computeAdjustedValues, toNumeric0]
  have hB : categoryRowFor c9df "B" =
      ⟨"B", 20, 1, 0, 0, none, some 20, some 0, some 0, some none⟩ := by
    simp +decide [categoryRowFor, c9df, adjLandOf, adjImprOf,
      computeAdjustedValues, toNumeric0]
  have hsorted : analyzePropertyValuesByCategory c9df =
      [⟨"B", 20, 1, 0, 0, none, some 20, some 0, some 0, some none⟩,
       ⟨"A", 10, 1, 0, 0, none, some 0, some 0, some 0, some (some 1)⟩] := by
    simp only [analyzePropertyValuesByCategory, hkeys, List.map_cons,
      List.map_nil, hA, hB, List.insertionSort, List.orderedInsert]
    rw [if_neg (by simp only [descCatOrder]; norm_num)]
  rw [hsorted]
  refine ⟨?_, fun n => by simp⟩
  simp +decide [findCategoryRow]

/-- C9 amended: when exemption information is supplied, every category of the
summary has defined (non-NaN) non-exempt value cells — the join's `fillna(0)`
leaves no missing entry there — but `fully_exempt_count` is assigned AFTER
that fill from a groupby over only the flag==1 rows, so it is NaN
(`some none`) exactly for the categories with no fully exempt rows, rather
than 0. -/
theorem c9_join_fill (df : DataFrame) (r : CategoryRow)
    (hr : r ∈ analyzePropertyValuesByCategory df) :
    ((df.cols.hasExempt || df.cols.hasFlag) = true →
      (∃ q, r.non_exempt_land_value = some q) ∧
      (∃ q, r.non_exempt_improvement_value = some q) ∧
      (∃ q, r.non_exempt_improvement_land_ratio = some q)) ∧
    (df.cols.hasFlag = true →
      (r.fully_exempt_count = some none ↔
        (df.rows.filter fun p => p.category == r.category).filter
          (fun p => toNumeric0 p.flag == 1) = [])) := by
  rw [analyzePropertyValuesByCategory, List.mem_insertionSort] at hr
  obtain ⟨c, _, rfl⟩ := List.mem_map.mp hr
  constructor
  · intro hcols
    refine ⟨?_, ?_, ?_⟩ <;>
      · rw [← Option.isSome_iff_exists]
        simp [categoryRowFor, hcols]
  · intro hflag
    have hcat : (categoryRowFor df c).category = c := rfl
    rw [hcat]
    simp only [categoryRowFor, hflag, if_true, Option.some.injEq]
    split_ifs with hlen
    · exact iff_of_true rfl (List.length_eq_zero.mp hlen)
    · exact iff_of_false (by simp) fun h => hlen (by rw [h]; rfl)

/-- A one-category table whose single row is fully exempt. -/
def c9wdf : DataFrame :=
  ⟨⟨true, true, true⟩, [⟨.num 10, .num 0, .num 0, .num 1, "", "", "X"⟩]⟩

/-- Witness for C9 (amended) at a one-row table: the category "X" row has
defined non-exempt cells, and its `fully_exempt_count` is not NaN since the
row is fully exempt. -/
theorem c9_join_fill_witness :
    ((∃ q, (categoryRowFor c9wdf "X").non_exempt_land_value = some q) ∧
      (∃ q, (categoryRowFor c9wdf "X").non_exempt_improvement_value = some q) ∧
      (∃ q, (categoryRowFor c9wdf "X").non_exempt_improvement_land_ratio
        = some q)) ∧
    ¬ ((categoryRowFor c9wdf "X").fully_exempt_count = some none) := by
  have hmem : categoryRowFor c9wdf "X" ∈ analyzePropertyValuesByCategory c9wdf := by
    rw [analyzePropertyValuesByCategory, List.mem_insertionSort]
    refine List.mem_map.mpr ⟨"X", ?_, rfl⟩
    simp +decide [categoryKeys, c9wdf]
  have h := c9_join_fill c9wdf (categoryRowFor c9wdf "X") hmem
  refine ⟨h.1 rfl, fun hnan => ?_⟩
  have hiff := (h.2 rfl).mp hnan
  have : (c9wdf.rows.filter fun p =>
      p.category == (categoryRowFor c9wdf "X").category).filter
        (fun p => toNumeric0 p.flag == 1) ≠ [] := by
    simp +decide [c9wdf, categoryRowFor, toNumeric0]
  exact this hiff

/-- `analyze_property_values_by_category` with the caller's table made
explicit: the source's first act is `result_df = df.copy()` and every later
mutation targets the copy, so the caller's DataFrame after the call is the
unchanged input; the embedding returns it alongside the summary table. -/
def analyzePropertyValuesByCategoryRun (df : DataFrame) :
    List CategoryRow × DataFrame :=
  (analyzePropertyValuesByCategory df, df)

/-- C10: calling `analyze_property_values_by_category` twice with the same
unmodified input and parameters yields identical output tables — same rows,
same values, same order — since the first call leaves the caller's table
unchanged (`df.copy()` semantics) and the summary is a pure function of it. -/
theorem c10_idempotent (df : DataFrame) :
    (analyzePropertyValuesByCategoryRun
        (analyzePropertyValuesByCategoryRun df).2).1 =
      (analyzePropertyValuesByCategoryRun df).1 ∧
    (analyzePropertyValuesByCategoryRun df).2 = df :=
  ⟨rfl, rfl⟩

end LVTShift
